import Mathlib

/-
Verification of the motion-segmentation and tension-scoring engine
(`backend/tension_detector/velocity_calculator.py`, class `VelocityCalculator`).

The Python code is shallowly embedded: per-frame records become Lean
structures, float arithmetic is idealized as exact rational (`ℚ`)
arithmetic — real (`ℝ`) arithmetic only where the source takes a square
root — and code that can raise an exception returns `Except`/`Option`.
Python dictionaries keyed by strings become association lists; a missing
key accessed with `[...]` is an exception (`Except.error`), a key tested
with `in` is a `lookup` returning `Option`.
-/

namespace VelocityCalculator

/-- One named-landmark position as produced by the pose collaborator:
`{x, y, z, visibility}` (the engine reads only `x`, `y`, `z`). -/
structure LandmarkPos where
  x : ℚ
  y : ℚ
  z : ℚ
  visibility : ℚ
deriving DecidableEq

/-- One per-frame pose record `{frame_number, timestamp, landmarks}`;
`landmarks` maps a joint name to a list of one or two positions
(left and, when present, right). -/
structure PoseFrame where
  frame_number : ℤ
  timestamp : ℚ
  landmarks : List (String × List LandmarkPos)
deriving DecidableEq

/-- A velocity sample of the stream consumed by smoothing and segmentation:
`{frame, timestamp, velocity, position}` with a scalar speed and the 3D
position of the tracked joint at the sample's frame. -/
structure VelSample where
  frame : ℤ
  timestamp : ℚ
  velocity : ℚ
  position : ℚ × ℚ × ℚ
deriving DecidableEq

instance : Inhabited VelSample := ⟨⟨0, 0, 0, (0, 0, 0)⟩⟩

/-- The velocity sample built by `calculate_joint_velocities`; its `velocity`
is real-valued because the source computes a Euclidean norm. -/
structure VelPoint where
  frame : ℤ
  timestamp : ℚ
  velocity : ℝ
  position : ℚ × ℚ × ℚ

/-- `np.mean` of a list of rationals: sum divided by length. -/
def mean (l : List ℚ) : ℚ := l.sum / (l.length : ℚ)

/-- Python `max(...)` over a list (only ever applied to nonempty lists). -/
def listMax (l : List ℚ) : ℚ := l.foldl max (l.headD 0)

/-- Python `min(...)` over a list (only ever applied to nonempty lists). -/
def listMin (l : List ℚ) : ℚ := l.foldl min (l.headD 0)

/-- `calculate_velocity`: Euclidean distance between two 3D positions divided
by the elapsed time; zero elapsed time yields velocity zero instead of a
division error. -/
noncomputable def calculate_velocity (pos1 pos2 : ℝ × ℝ × ℝ) (time_diff : ℝ) : ℝ :=
  if time_diff = 0 then 0
  else
    Real.sqrt ((pos2.1 - pos1.1) ^ 2 + (pos2.2.1 - pos1.2.1) ^ 2 +
      (pos2.2.2 - pos1.2.2) ^ 2) / time_diff

/-- Python `0 if side == 'left' else 1`. -/
def jointIndex (side : String) : ℕ := if side = "left" then 0 else 1

/-- Loop body of `calculate_joint_velocities` over consecutive frame pairs.
A frame pair is skipped when the joint is absent from either frame; when the
joint is present, the side's index is accessed unconditionally, so a missing
index is an uncaught `IndexError`, modelled as `Except.error ()`. -/
noncomputable def calculate_joint_velocities_aux (joint_name side : String) :
    PoseFrame → List PoseFrame → Except Unit (List VelPoint)
  | _, [] => .ok []
  | prev_frame, curr_frame :: rest =>
    match prev_frame.landmarks.lookup joint_name,
          curr_frame.landmarks.lookup joint_name with
    | some prev_positions, some curr_positions =>
      match prev_positions.get? (jointIndex side),
            curr_positions.get? (jointIndex side) with
      | some prev_pos, some curr_pos =>
        match calculate_joint_velocities_aux joint_name side curr_frame rest with
        | .error e => .error e
        | .ok tail =>
          .ok ({ frame := curr_frame.frame_number,
                 timestamp := curr_frame.timestamp,
                 velocity := calculate_velocity
                   ((prev_pos.x : ℝ), (prev_pos.y : ℝ), (prev_pos.z : ℝ))
                   ((curr_pos.x : ℝ), (curr_pos.y : ℝ), (curr_pos.z : ℝ))
                   (((curr_frame.timestamp - prev_frame.timestamp : ℚ)) : ℝ),
                 position := (curr_pos.x, curr_pos.y, curr_pos.z) } :: tail)
      | _, _ => .error ()
    | _, _ => calculate_joint_velocities_aux joint_name side curr_frame rest

/-- `calculate_joint_velocities`: velocities of one joint/side across the
ordered frame sequence, one output sample per consecutive frame pair in
which the joint appears in both frames. -/
noncomputable def calculate_joint_velocities (pose_data_sequence : List PoseFrame)
    (joint_name side : String) : Except Unit (List VelPoint) :=
  match pose_data_sequence with
  | [] => .ok []
  | f :: rest => calculate_joint_velocities_aux joint_name side f rest

/-- `_smooth_velocity_data`: centered moving average over the velocity scalar;
input shorter than the window is returned unchanged; near the boundaries the
window shrinks to the available neighbors. -/
def _smooth_velocity_data (velocities : List VelSample) (window_size : ℕ) :
    List VelSample :=
  if velocities.length < window_size then velocities
  else
    velocities.enum.map (fun p =>
      let i := p.1
      let start_idx := i - window_size / 2
      let end_idx := min velocities.length (i + window_size / 2 + 1)
      let window_velocities :=
        ((velocities.drop start_idx).take (end_idx - start_idx)).map VelSample.velocity
      { p.2 with velocity := mean window_velocities })

/-- The rep-record fields read by the tension scorer; `tension_score` is
optional because Python tests `'tension_score' in reps[0]`. -/
structure RepData where
  tension_score : Option ℚ
  avg_velocity : ℚ
  max_velocity : ℚ
  duration : ℚ
deriving DecidableEq

/-- `calculate_rep_tension_score`: weighted combination of velocity, control
and duration sub-scores, clamped to `[0, 100]`. -/
def calculate_rep_tension_score (rep_data : RepData) : ℚ :=
  let avg_velocity := rep_data.avg_velocity
  let max_velocity := rep_data.max_velocity
  let duration := rep_data.duration
  let velocity_score := max 0 (100 - avg_velocity * 100)
  let control_score := max 0 (100 - max_velocity * 80)
  let duration_score := min 100 (duration * 20)
  let tension_score :=
    velocity_score * 0.5 + control_score * 0.3 + duration_score * 0.2
  min 100 (max 0 tension_score)

/-- One signed displacement entry `{frame, timestamp, movement, position}`
built by `_detect_bar_movement_reps` from an adjacent pair of position
samples; the entry carries the frame/timestamp of the later sample. -/
structure MovementPoint where
  frame : ℤ
  timestamp : ℚ
  movement : ℚ
  position : ℚ
deriving DecidableEq, Inhabited

/-- One scalar-position sample `{frame, timestamp, position, velocity}` as
assembled at the top of `detect_reps_from_bar_movement`. -/
structure PosPoint where
  frame : ℤ
  timestamp : ℚ
  position : ℚ
  velocity : ℚ
deriving DecidableEq

/-- A pull phase record of `_detect_bar_movement_reps`. -/
structure PullPhase where
  start_frame : ℤ
  end_frame : ℤ
  start_time : ℚ
  end_time : ℚ
  duration : ℚ
deriving DecidableEq

/-- A rep emitted by `_detect_bar_movement_reps` (pull phase matched with a
following release phase). -/
structure BarRep where
  start_time : ℚ
  end_time : ℚ
  duration : ℚ
  start_frame : ℤ
  end_frame : ℤ
  pull_duration : ℚ
  release_duration : ℚ
deriving DecidableEq

/-- A rep of `detect_reps_from_bar_movement` enriched with velocity metrics. -/
structure EnhancedRep where
  start_time : ℚ
  end_time : ℚ
  duration : ℚ
  start_frame : ℤ
  end_frame : ℤ
  avg_velocity : ℚ
  max_velocity : ℚ
  min_velocity : ℚ
  tension_score : ℚ
  rep_type : String
  velocity_points : ℕ
deriving DecidableEq

/-- The per-pair displacement list: `movement[i] = position[i] − position[i−1]`
for `i = 1 .. len−1`, each entry tagged with the later sample's frame,
timestamp and position. -/
def barMovements (positions : List PosPoint) : List MovementPoint :=
  (positions.zip positions.tail).map (fun pr =>
    { frame := pr.2.frame, timestamp := pr.2.timestamp,
      movement := pr.2.position - pr.1.position, position := pr.2.position })

/-- Builds the pull-phase record from a maximal positive-movement run. -/
def mkPullPhase (run : List MovementPoint) : PullPhase :=
  let s := run.headD default
  let e := run.getLastD default
  { start_frame := s.frame, end_frame := e.frame, start_time := s.timestamp,
    end_time := e.timestamp, duration := e.timestamp - s.timestamp }

/-- The pull-phase scan of `_detect_bar_movement_reps`: starting at an entry
with `movement > 0.005`, the phase extends over the maximal following run
with `movement > 0`; a phase is kept only if it spans at least two entries
(`pull_end > pull_start`). -/
def findPullPhases : List MovementPoint → List PullPhase
  | [] => []
  | m :: rest =>
    if m.movement > 1 / 200 then
      let run := m :: rest.takeWhile (fun x => decide (x.movement > 0))
      let rest2 := rest.dropWhile (fun x => decide (x.movement > 0))
      let tailPhases := findPullPhases rest2
      if 2 ≤ run.length then mkPullPhase run :: tailPhases else tailPhases
    else findPullPhases rest
termination_by l => l.length
decreasing_by
  · simp only [List.length_cons]
    exact Nat.lt_succ_of_le (List.dropWhile_suffix _).sublist.length_le
  · simp

/-- The release search of `_detect_bar_movement_reps`: the first movement
entry after the pull phase's end frame with `movement < −0.005` starts the
release; the release extends over the maximal following run with
`movement < 0`. Returns the (release-start, release-end) entries. -/
def findReleaseRun (movements : List MovementPoint) (pull_end_frame : ℤ) :
    Option (MovementPoint × MovementPoint) :=
  match movements.dropWhile
      (fun m => !(decide (pull_end_frame < m.frame) &&
                  decide (m.movement < -(1 / 200)))) with
  | [] => none
  | m :: tail =>
    some (m, (m :: tail.takeWhile (fun x => decide (x.movement < 0))).getLastD m)

/-- `_detect_bar_movement_reps`: pairs each pull phase with the first
following release phase; each complete pull→release cycle is one rep. -/
def _detect_bar_movement_reps (positions : List PosPoint) : List BarRep :=
  let movements := barMovements positions
  let pull_phases := findPullPhases movements
  pull_phases.filterMap (fun pull_phase =>
    match findReleaseRun movements pull_phase.end_frame with
    | none => none
    | some (release_start, release_end) =>
      some { start_time := pull_phase.start_time,
             end_time := release_end.timestamp,
             duration := release_end.timestamp - pull_phase.start_time,
             start_frame := pull_phase.start_frame,
             end_frame := release_end.frame,
             pull_duration := pull_phase.duration,
             release_duration := release_end.timestamp - release_start.timestamp })

/-- The position extraction at the top of `detect_reps_from_bar_movement`:
the y-coordinate of the sample's position tuple is the scalar position (in
this embedding every sample carries a position triple, so the
`isinstance` branch falling back to the frame number is never taken). -/
def posOfVel (v : VelSample) : PosPoint :=
  { frame := v.frame, timestamp := v.timestamp, position := v.position.2.1,
    velocity := v.velocity }

/-- `detect_reps_from_bar_movement`: runs the bar-movement matcher on the
scalar position series, then enriches each detected rep with velocity
statistics over the samples inside its frame range; a rep whose frame range
contains no velocity sample is dropped. -/
def detect_reps_from_bar_movement (velocities : List VelSample)
    (exercise_type : String) : List EnhancedRep :=
  let _ := exercise_type
  let positions := velocities.map posOfVel
  let reps := _detect_bar_movement_reps positions
  reps.filterMap (fun rep =>
    let rep_velocities := velocities.filter
      (fun v => decide (rep.start_frame ≤ v.frame) && decide (v.frame ≤ rep.end_frame))
    if rep_velocities = [] then none
    else
      let vels := rep_velocities.map VelSample.velocity
      let avg_velocity := vels.sum / (vels.length : ℚ)
      let max_velocity := listMax vels
      let min_velocity := listMin vels
      let tension_score := max 0 (100 - avg_velocity * 50)
      some { start_time := rep.start_time, end_time := rep.end_time,
             duration := rep.duration, start_frame := rep.start_frame,
             end_frame := rep.end_frame, avg_velocity := avg_velocity,
             max_velocity := max_velocity, min_velocity := min_velocity,
             tension_score := tension_score, rep_type := "bar_movement",
             velocity_points := rep_velocities.length })

/-- The numeric tuning fields of one `exercise_params` entry that the rep
detection path reads (`primary_joints`, `recommended_joint`,
`movement_pattern` and `difficulty` are never consulted by the functions
verified here and are omitted). -/
structure ExerciseParams where
  velocity_threshold : ℚ
  min_rep_duration : ℚ
  min_rest_duration : ℚ
  smoothing_window : ℕ
deriving DecidableEq

/-- The `self.exercise_params` table built in `__init__`, numeric fields
only, in source order. -/
def exercise_params : List (String × ExerciseParams) :=
  [("barbell_bench_press", ⟨0.06, 1.2, 0.5, 7⟩),
   ("dumbbell_bench_press", ⟨0.05, 1.0, 0.4, 6⟩),
   ("incline_bench_press", ⟨0.06, 1.1, 0.4, 6⟩),
   ("push_up", ⟨0.06, 0.8, 0.3, 5⟩),
   ("lat_pulldown", ⟨0.02, 0.2, 0.1, 2⟩),
   ("pull_up", ⟨0.08, 1.0, 0.4, 6⟩),
   ("seated_cable_row", ⟨0.05, 0.9, 0.3, 5⟩),
   ("barbell_bicep_curl", ⟨0.04, 0.7, 0.2, 3⟩),
   ("dumbbell_bicep_curl", ⟨0.04, 0.6, 0.2, 3⟩),
   ("tricep_pushdown", ⟨0.05, 0.6, 0.2, 3⟩),
   ("skull_crushers", ⟨0.04, 0.8, 0.3, 4⟩),
   ("overhead_tricep_press", ⟨0.05, 0.8, 0.3, 4⟩),
   ("shoulder_press", ⟨0.06, 1.0, 0.4, 6⟩),
   ("lateral_raises", ⟨0.04, 0.8, 0.3, 4⟩),
   ("barbell_squat", ⟨0.08, 1.5, 0.6, 8⟩),
   ("dumbbell_goblet_squat", ⟨0.07, 1.3, 0.5, 7⟩),
   ("deadlift", ⟨0.08, 1.2, 0.8, 8⟩),
   ("romanian_deadlift", ⟨0.07, 1.0, 0.6, 7⟩),
   ("lunges", ⟨0.06, 1.0, 0.4, 6⟩),
   ("calf_raises", ⟨0.05, 0.6, 0.2, 3⟩),
   ("leg_press", ⟨0.07, 1.2, 0.5, 7⟩),
   ("hip_thrust", ⟨0.06, 1.0, 0.4, 6⟩),
   ("bench_press", ⟨0.05, 0.8, 0.3, 5⟩),
   ("bicep_curl", ⟨0.04, 0.6, 0.2, 3⟩),
   ("squat", ⟨0.08, 1.0, 0.4, 7⟩),
   ("default", ⟨0.05, 0.6, 0.2, 3⟩)]

/-- The `'default'` entry of the table. -/
def default_params : ExerciseParams := ⟨0.05, 0.6, 0.2, 3⟩

/-- Python `override or params[...]` for a float override: `None` and `0.0`
are both falsy, so either selects the profile default. -/
def resolveParam (override : Option ℚ) (dflt : ℚ) : ℚ :=
  match override with
  | none => dflt
  | some v => if v = 0 then dflt else v

/-- `detect_reps`, the public segmentation entry point. After the empty
check, parameter resolution and smoothing, only the `lat_pulldown` branch
returns a value; for any other exercise type control falls off the end of
the function body (the threshold state machine that follows in the source
file belongs to dead code), which in Python yields `None` — modelled as
`none`. -/
def detect_reps (velocities : List VelSample) (exercise_type : String)
    (velocity_threshold min_rep_duration min_rest_duration : Option ℚ) :
    Option (List EnhancedRep) :=
  if velocities = [] then some []
  else
    let params := (exercise_params.lookup exercise_type).getD default_params
    let vt := resolveParam velocity_threshold params.velocity_threshold
    let mrd := resolveParam min_rep_duration params.min_rep_duration
    let mrest := resolveParam min_rest_duration params.min_rest_duration
    let _ := (vt, mrd, mrest)
    let smoothing_window := params.smoothing_window
    let smoothed_velocities := _smooth_velocity_data velocities smoothing_window
    if exercise_type = "lat_pulldown" then
      some (detect_reps_from_bar_movement smoothed_velocities exercise_type)
    else
      none

/-- Core of `_is_significant_movement` on the extracted velocity scalars:
range filter, sample-count filter, then the start/peak/end shape filter. For
six or more samples (`mid_point > 2`) the start average is over the first
`mid_point//2` samples (roughly the first quarter), the peak average over
the `mid_point` samples starting at `mid_point//2` (roughly the middle
half), and the end average over the samples from `mid_point + mid_point//2`
on (roughly the last quarter); for shorter lists the first sample, the
whole-list mean and the last sample are used. -/
def significantCore (velocities : List ℚ) : Bool :=
  let velocity_range := listMax velocities - listMin velocities
  if velocity_range < 3 / 100 then false
  else if velocities.length < 3 then false
  else
    let mid_point := velocities.length / 2
    let start_avg :=
      if 2 < mid_point then mean (velocities.take (mid_point / 2))
      else velocities.headD 0
    let peak_avg :=
      if 2 < mid_point then mean ((velocities.drop (mid_point / 2)).take mid_point)
      else mean velocities
    let end_avg :=
      if 2 < mid_point then mean (velocities.drop (mid_point + mid_point / 2))
      else velocities.getLastD 0
    if peak_avg ≤ start_avg ∨ peak_avg ≤ end_avg then false else true

/-- `_is_significant_movement`: empty candidate intervals are rejected, then
the scalar-velocity core decides. -/
def _is_significant_movement (rep_velocities : List VelSample) : Bool :=
  if rep_velocities = [] then false
  else significantCore (rep_velocities.map VelSample.velocity)

/-- A rep emitted by `_detect_reps_core`. -/
structure CoreRep where
  start_time : ℚ
  end_time : ℚ
  duration : ℚ
  avg_velocity : ℚ
  start_frame : ℤ
  end_frame : ℤ
deriving DecidableEq

/-- The loop state of `_detect_reps_core`: accepted reps, the
`RESTING`/`IN_REP` flag, the index where the open rep started, and the end
time of the last accepted rep. -/
structure CoreState where
  reps : List CoreRep
  in_rep : Bool
  rep_start_idx : ℕ
  last_rep_end_time : ℚ

/-- One iteration of the `_detect_reps_core` loop at index `i`. -/
def coreStep (velocities : List VelSample)
    (velocity_threshold min_rep_duration min_rest_duration : ℚ)
    (st : CoreState) (p : ℕ × VelSample) : CoreState :=
  let i := p.1
  let vel_data := p.2
  let velocity := vel_data.velocity
  let timestamp := vel_data.timestamp
  if st.in_rep = false ∧ velocity_threshold < velocity then
    if min_rest_duration ≤ timestamp - st.last_rep_end_time then
      { st with in_rep := true, rep_start_idx := i }
    else st
  else if st.in_rep = true ∧ velocity < velocity_threshold then
    let rep_end_idx := i
    let start_sample := velocities.getD st.rep_start_idx default
    let rep_duration := timestamp - start_sample.timestamp
    if min_rep_duration ≤ rep_duration then
      let rep_velocities :=
        (velocities.drop st.rep_start_idx).take (rep_end_idx + 1 - st.rep_start_idx)
      if _is_significant_movement rep_velocities then
        { reps := st.reps ++
            [{ start_time := start_sample.timestamp, end_time := timestamp,
               duration := rep_duration,
               avg_velocity := mean (rep_velocities.map VelSample.velocity),
               start_frame := start_sample.frame, end_frame := vel_data.frame }],
          in_rep := false, rep_start_idx := st.rep_start_idx,
          last_rep_end_time := timestamp }
      else { st with in_rep := false }
    else { st with in_rep := false }
  else st

/-- `_detect_reps_core`: the threshold-crossing state machine. Starts a rep
when the velocity rises above the threshold after enough rest, closes it
when the velocity falls below the threshold, and accepts the candidate only
if it passes the minimum-duration filter and then the significant-movement
predicate. -/
def _detect_reps_core (velocities : List VelSample)
    (velocity_threshold min_rep_duration min_rest_duration : ℚ) : List CoreRep :=
  (velocities.enum.foldl
    (coreStep velocities velocity_threshold min_rep_duration min_rest_duration)
    ⟨[], false, 0, 0⟩).reps

/-- Trace state: candidate intervals `(start index, end index, duration)`
recorded at every `IN_REP → RESTING` transition, before any filter. -/
structure TraceState where
  cands : List (ℕ × ℕ × ℚ)
  in_rep : Bool
  rep_start_idx : ℕ
  last_rep_end_time : ℚ

/-- Instrumented iteration of `_detect_reps_core`: identical control flow,
but records every candidate interval at its closing transition whether or
not the duration/significance filters accept it. `last_rep_end_time` is
updated exactly when the uninstrumented step accepts the candidate. -/
def traceStep (velocities : List VelSample)
    (velocity_threshold min_rep_duration min_rest_duration : ℚ)
    (st : TraceState) (p : ℕ × VelSample) : TraceState :=
  let i := p.1
  let vel_data := p.2
  let velocity := vel_data.velocity
  let timestamp := vel_data.timestamp
  if st.in_rep = false ∧ velocity_threshold < velocity then
    if min_rest_duration ≤ timestamp - st.last_rep_end_time then
      { st with in_rep := true, rep_start_idx := i }
    else st
  else if st.in_rep = true ∧ velocity < velocity_threshold then
    let rep_end_idx := i
    let start_sample := velocities.getD st.rep_start_idx default
    let rep_duration := timestamp - start_sample.timestamp
    let accepted :=
      min_rep_duration ≤ rep_duration ∧
      _is_significant_movement
        ((velocities.drop st.rep_start_idx).take (rep_end_idx + 1 - st.rep_start_idx)) = true
    { cands := st.cands ++ [(st.rep_start_idx, rep_end_idx, rep_duration)],
      in_rep := false, rep_start_idx := st.rep_start_idx,
      last_rep_end_time := if accepted then timestamp else st.last_rep_end_time }
  else st

/-- Candidate intervals of one `_detect_reps_core` run, in closing order. -/
def _detect_reps_core_trace (velocities : List VelSample)
    (velocity_threshold min_rep_duration min_rest_duration : ℚ) :
    List (ℕ × ℕ × ℚ) :=
  (velocities.enum.foldl
    (traceStep velocities velocity_threshold min_rep_duration min_rest_duration)
    ⟨[], false, 0, 0⟩).cands

/-- Round-half-to-even on a rational, as Python `round` on an exact value. -/
def roundHalfEven (x : ℚ) : ℤ :=
  let f := ⌊x⌋
  let r := x - (f : ℚ)
  if r < 1 / 2 then f
  else if 1 / 2 < r then f + 1
  else if 2 ∣ f then f else f + 1

/-- Python `round(x, 1)` on an exact rational. -/
def pythonRound1 (x : ℚ) : ℚ := ((roundHalfEven (x * 10) : ℤ) : ℚ) / 10

/-- Entry `i` of `np.linspace(0.8, 1.2, n)`. -/
def linspaceWeight (n i : ℕ) : ℚ :=
  if n = 1 then 4 / 5 else 4 / 5 + (2 / 5) * (i : ℚ) / ((n : ℚ) - 1)

/-- `calculate_overall_tension_rating`. Empty input rates `0.0`. If the
first rep carries a `tension_score`, the scores are averaged and, for two or
more reps, a velocity-decay bonus `min(20, decay·50)` is added and the sum
is capped at `100` (a rep after the first lacking the key would be an
uncaught `KeyError`, modelled as `none`). Otherwise the legacy path scores
each rep with `calculate_rep_tension_score`, combines them with
`np.average` under `np.linspace(0.8, 1.2, n)` weights and rounds to one
decimal. -/
def calculate_overall_tension_rating (reps : List RepData) : Option ℚ :=
  match reps with
  | [] => some 0
  | r0 :: _ =>
    if (r0.tension_score).isSome then
      match reps.mapM RepData.tension_score with
      | none => none
      | some tension_scores =>
        let avg_tension := tension_scores.sum / (tension_scores.length : ℚ)
        if 1 < reps.length then
          let first_half := reps.take (reps.length / 2)
          let second_half := reps.drop (reps.length / 2)
          let first_avg_vel :=
            (first_half.map RepData.avg_velocity).sum / (first_half.length : ℚ)
          let second_avg_vel :=
            (second_half.map RepData.avg_velocity).sum / (second_half.length : ℚ)
          let velocity_decay :=
            if 0 < first_avg_vel then (first_avg_vel - second_avg_vel) / first_avg_vel
            else 0
          let decay_bonus := min 20 (velocity_decay * 50)
          some (min 100 (avg_tension + decay_bonus))
        else some avg_tension
    else
      let rep_scores := reps.map calculate_rep_tension_score
      let n := rep_scores.length
      let weighted_score :=
        (rep_scores.enum.map (fun p => linspaceWeight n p.1 * p.2)).sum /
          ((List.range n).map (linspaceWeight n)).sum
      some (pythonRound1 weighted_score)

/-! Concrete inputs and spec-side comparison definitions used by the
claims below. -/

/-- Shorthand for a velocity sample at the coordinate origin. -/
def mkv (fr : ℤ) (t v : ℚ) : VelSample := ⟨fr, t, v, (0, 0, 0)⟩

/-- The position series `[0,1,2,3,2,1,0]` with frames `0..6` and uniform
timestamps at 0.1 s steps. -/
def c4positions : List PosPoint :=
  [⟨0, 0, 0, 0⟩, ⟨1, 1/10, 1, 0⟩, ⟨2, 2/10, 2, 0⟩, ⟨3, 3/10, 3, 0⟩,
   ⟨4, 4/10, 2, 0⟩, ⟨5, 5/10, 1, 0⟩, ⟨6, 6/10, 0, 0⟩]

/-- Two scored reps whose second half is much faster than the first:
tension scores 50 and 50, average velocities 0.01 and 1. -/
def c5cex : List RepData := [⟨some 50, 1/100, 0, 0⟩, ⟨some 50, 1, 0, 0⟩]

/-- Two scored reps that slow down across the set: tension scores 80 and
60, average velocities 2 and 1. -/
def c5wit : List RepData := [⟨some 80, 2, 0, 0⟩, ⟨some 60, 1, 0, 0⟩]

/-- Mean `avg_velocity` of the first half of a rep sequence (split at the
midpoint, as the rating function does). -/
def firstHalfMeanVel (reps : List RepData) : ℚ :=
  mean ((reps.take (reps.length / 2)).map RepData.avg_velocity)

/-- Mean `avg_velocity` of the second half of a rep sequence. -/
def secondHalfMeanVel (reps : List RepData) : ℚ :=
  mean ((reps.drop (reps.length / 2)).map RepData.avg_velocity)

/-- The significance predicate exactly as the spec words it (for comparison
with the implementation): accept iff the dynamic range is at least `0.03`,
there are at least 3 samples, and — splitting the interval into thirds of
`n / 3` samples — the middle third's mean is strictly greater than both the
first third's and the last third's mean. -/
def spec_significant_thirds (velocities : List ℚ) : Bool :=
  let n := velocities.length
  let third := n / 3
  let first_mean := mean (velocities.take third)
  let middle_mean := mean ((velocities.drop third).take third)
  let last_mean := mean (velocities.drop (2 * third))
  !(decide (listMax velocities - listMin velocities < 3 / 100)) &&
    !(decide (n < 3)) &&
    decide (first_mean < middle_mean) && decide (last_mean < middle_mean)

/-- Six velocity samples, range `0.4`, whose second quarter is high while
the middle third is modest: the implementation accepts this interval, the
spec's thirds rule rejects it. -/
def c7samples : List VelSample :=
  [mkv 0 0 0, mkv 1 (1/10) (2/5), mkv 2 (2/10) (1/10), mkv 3 (3/10) (1/10),
   mkv 4 (4/10) 0, mkv 5 (5/10) 0]

/-- The velocity series of the spec's boundary scenario,
`[0,0,0.1,0.15,0.2,0.15,0.1,0.02,0,0,0.1,0.15,0.2,0.1,0.02,0]`, sampled at
0.1 s steps with frames `0..15`. -/
def c8samples : List VelSample :=
  (List.enum [0, 0, 1/10, 3/20, 1/5, 3/20, 1/10, 1/50, 0, 0,
              1/10, 3/20, 1/5, 1/10, 1/50, 0]).map
    (fun p => mkv p.1 ((p.1 : ℚ) / 10) p.2)

/-- A pose frame whose `wrist` entry carries a single (left) position. -/
def c3f0 : PoseFrame := ⟨0, 0, [("wrist", [⟨0, 0, 0, 1⟩])]⟩

/-- Second pose frame with a single-`wrist`-position landmark map. -/
def c3f1 : PoseFrame := ⟨1, 1/30, [("wrist", [⟨1/10, 0, 0, 1⟩])]⟩

/-- Two pose frames whose `wrist` entry carries both a left and a right
position. -/
def c3ok : List PoseFrame :=
  [⟨0, 0, [("wrist", [⟨0, 0, 0, 1⟩, ⟨1, 0, 0, 1⟩])]⟩,
   ⟨1, 1/30, [("wrist", [⟨0, 1/10, 0, 1⟩, ⟨1, 1/10, 0, 1⟩])]⟩]

/-- The fields of a velocity sample other than the velocity scalar. -/
def stripVelocity (v : VelSample) : ℤ × ℚ × (ℚ × ℚ × ℚ) :=
  (v.frame, v.timestamp, v.position)

/-- The start-segment average of the significance shape filter: for six or
more samples the mean of the first `(n/2)/2` samples (roughly the first
quarter), otherwise the first sample. -/
def sigStartAvg (vels : List ℚ) : ℚ :=
  if 2 < vels.length / 2 then mean (vels.take (vels.length / 2 / 2))
  else vels.headD 0

/-- The peak-segment average of the significance shape filter: for six or
more samples the mean of the `n/2` samples starting at `(n/2)/2` (roughly
the middle half), otherwise the whole-list mean. -/
def sigPeakAvg (vels : List ℚ) : ℚ :=
  if 2 < vels.length / 2 then
    mean ((vels.drop (vels.length / 2 / 2)).take (vels.length / 2))
  else mean vels

/-- The end-segment average of the significance shape filter: for six or
more samples the mean of the samples from `n/2 + (n/2)/2` on (roughly the
last quarter), otherwise the last sample. -/
def sigEndAvg (vels : List ℚ) : ℚ :=
  if 2 < vels.length / 2 then
    mean (vels.drop (vels.length / 2 + vels.length / 2 / 2))
  else vels.getLastD 0

/-! Theorems for the claims. -/

/-- C1: for every non-empty velocity sequence and every exercise type other
than `lat_pulldown`, `detect_reps` returns `none` (Python `None`, no rep
list at all): after parameter resolution and smoothing only the
`lat_pulldown` branch returns a value, and control falls off the end of the
function for every other exercise type. -/
theorem detect_reps_none_for_non_lat_pulldown (velocities : List VelSample)
    (exercise_type : String) (vt mrd mrest : Option ℚ)
    (hne : velocities ≠ []) (het : exercise_type ≠ "lat_pulldown") :
    detect_reps velocities exercise_type vt mrd mrest = none := by
  simp [detect_reps, hne, het]

/-- Witness for C1 at a concrete one-sample stream and exercise `squat`. -/
theorem detect_reps_none_witness :
    ([mkv 0 0 1] : List VelSample) ≠ [] ∧ ("squat" : String) ≠ "lat_pulldown" ∧
      detect_reps [mkv 0 0 1] "squat" none none none = none :=
  ⟨by decide, by decide,
   detect_reps_none_for_non_lat_pulldown [mkv 0 0 1] "squat" none none none
     (by decide) (by decide)⟩

/-- C2: on an empty velocity stream, `detect_reps` returns an empty rep
list (for every exercise type and every parameter override) and
`detect_reps_from_bar_movement` returns an empty rep list; neither raises. -/
theorem empty_stream_empty_reps (exercise_type exercise_type2 : String)
    (vt mrd mrest : Option ℚ) :
    detect_reps [] exercise_type vt mrd mrest = some [] ∧
      detect_reps_from_bar_movement [] exercise_type2 = [] := by
  constructor
  · simp [detect_reps]
  · simp [detect_reps_from_bar_movement, _detect_bar_movement_reps, barMovements,
      findPullPhases]

/-- Counterexample for C4: on the position series `[0,1,2,3,2,1,0]` with
frames `0..6`, the single rep emitted by the bar-movement matcher spans
frames `1` to `6`, not `0` to `6`: displacements carry the frame of the
later sample of each pair, so the rep does not start at the first frame of
the series as claimed. -/
theorem bar_movement_c4_counterexample :
    (_detect_bar_movement_reps c4positions).map
        (fun r => (r.start_frame, r.end_frame)) = [((1 : ℤ), (6 : ℤ))] ∧
      ((1 : ℤ), (6 : ℤ)) ≠ ((0 : ℤ), (6 : ℤ)) := by
  constructor
  · norm_num [_detect_bar_movement_reps, barMovements, c4positions, findPullPhases,
      findReleaseRun, mkPullPhase, List.takeWhile, List.dropWhile,
      List.filterMap_cons, List.getLastD, List.getLast?]
  · decide

/-- C4 (amended): on the position series `[0,1,2,3,2,1,0]` with frames
`0..6` and 0.1 s frame-uniform timestamps, the bar-movement matcher emits
exactly one rep, spanning from the second sample's frame (`1`) to the last
sample's frame (`6`), arising from one pull phase over the three
displacement samples at frames `1..3` followed by one release phase over
the three displacement samples at frames `4..6`. -/
theorem bar_movement_c4_amended :
    _detect_bar_movement_reps c4positions =
      [{ start_time := 1/10, end_time := 3/5, duration := 1/2, start_frame := 1,
         end_frame := 6, pull_duration := 1/5, release_duration := 1/5 }] ∧
      findPullPhases (barMovements c4positions) =
        [{ start_frame := 1, end_frame := 3, start_time := 1/10,
           end_time := 3/10, duration := 1/5 }] ∧
      findReleaseRun (barMovements c4positions) 3 =
        some (⟨4, 2/5, -1, 2⟩, ⟨6, 3/5, -1, 0⟩) := by
  refine ⟨?_, ?_, ?_⟩ <;>
    norm_num [_detect_bar_movement_reps, barMovements, c4positions, findPullPhases,
      findReleaseRun, mkPullPhase, List.takeWhile, List.dropWhile,
      List.filterMap_cons, List.getLastD, List.getLast?]

/-- C6: the per-rep threshold-path tension score equals the clamp to
`[0, 100]` of `0.5·velocity_score + 0.3·control_score + 0.2·duration_score`
with `velocity_score = max(0, 100 − avg_velocity·100)`,
`control_score = max(0, 100 − max_velocity·80)` and
`duration_score = min(100, duration·20)`, and always lies in `[0, 100]`. -/
theorem rep_tension_score_c6 (rep_data : RepData) :
    calculate_rep_tension_score rep_data =
      min 100 (max 0
        (max 0 (100 - rep_data.avg_velocity * 100) * 0.5 +
          max 0 (100 - rep_data.max_velocity * 80) * 0.3 +
          min 100 (rep_data.duration * 20) * 0.2)) ∧
      0 ≤ calculate_rep_tension_score rep_data ∧
      calculate_rep_tension_score rep_data ≤ 100 := by
  have h : calculate_rep_tension_score rep_data =
      min 100 (max 0
        (max 0 (100 - rep_data.avg_velocity * 100) * 0.5 +
          max 0 (100 - rep_data.max_velocity * 80) * 0.3 +
          min 100 (rep_data.duration * 20) * 0.2)) := rfl
  refine ⟨h, ?_, ?_⟩
  · rw [h]; exact le_min (by norm_num) (le_max_left 0 _)
  · rw [h]; exact min_le_left _ _

/-- C8: with `velocity_threshold = 0.05`, `min_rep_duration = 1.0` s and
`min_rest_duration = 0.3` s on the 0.1 s-step velocity series
`[0,0,0.1,0.15,0.2,0.15,0.1,0.02,0,0,0.1,0.15,0.2,0.1,0.02,0]`, the
threshold-crossing segmenter closes exactly two candidate intervals
(indices 3–7 and 10–14, opened at its two threshold crossings) yet accepts
zero reps: each candidate has duration `0.4` s, below the minimum-duration
filter, which is checked before the significance predicate. -/
theorem threshold_core_c8 :
    _detect_reps_core c8samples (1/20) 1 (3/10) = [] ∧
      _detect_reps_core_trace c8samples (1/20) 1 (3/10) =
        [(3, 7, 2/5), (10, 14, 2/5)] ∧
      ((2 : ℚ)/5 < 1) := by
  refine ⟨?_, ?_, by norm_num⟩ <;>
    norm_num [_detect_reps_core, _detect_reps_core_trace, c8samples, mkv,
      coreStep, traceStep, List.enum, List.enumFrom, List.foldl, List.getD,
      List.get?, mean]

/-- C9: the computed velocity is the Euclidean distance between the two 3D
positions divided by the elapsed time, and a zero elapsed time yields
velocity `0` instead of a division error. -/
theorem calculate_velocity_c9 (pos1 pos2 : ℝ × ℝ × ℝ) (time_diff : ℝ) :
    calculate_velocity pos1 pos2 0 = 0 ∧
      (time_diff ≠ 0 → calculate_velocity pos1 pos2 time_diff =
        Real.sqrt ((pos2.1 - pos1.1) ^ 2 + (pos2.2.1 - pos1.2.1) ^ 2 +
          (pos2.2.2 - pos1.2.2) ^ 2) / time_diff) := by
  constructor
  · simp [calculate_velocity]
  · intro h
    simp [calculate_velocity, h]

/-- Witness for C9: from `(0,0,0)` to `(1,2,2)` in 2 s the velocity is
`√9 / 2 = 3/2`, and at zero elapsed time it is `0`. -/
theorem calculate_velocity_c9_witness :
    (2 : ℝ) ≠ 0 ∧ calculate_velocity (0, 0, 0) (1, 2, 2) 2 = 3 / 2 ∧
      calculate_velocity (0, 0, 0) (1, 2, 2) 0 = 0 := by
  have h2 : (2 : ℝ) ≠ 0 := by norm_num
  have h := calculate_velocity_c9 ((0 : ℝ), (0 : ℝ), (0 : ℝ))
    ((1 : ℝ), (2 : ℝ), (2 : ℝ)) 2
  refine ⟨h2, ?_, h.1⟩
  rw [h.2 h2]
  norm_num
  rw [show (9 : ℝ) = 3 ^ 2 by norm_num,
    Real.sqrt_sq (by norm_num : (0 : ℝ) ≤ 3)]

/-- C10: smoothing preserves the length of the stream and every field of
every sample except the velocity scalar (frame, timestamp, position), and
an input strictly shorter than the window is returned entirely unchanged. -/
theorem smoothing_c10 (velocities : List VelSample) (window_size : ℕ) :
    (_smooth_velocity_data velocities window_size).length = velocities.length ∧
      (_smooth_velocity_data velocities window_size).map stripVelocity =
        velocities.map stripVelocity ∧
      (velocities.length < window_size →
        _smooth_velocity_data velocities window_size = velocities) := by
  have hmap : (_smooth_velocity_data velocities window_size).map stripVelocity =
      velocities.map stripVelocity := by
    unfold _smooth_velocity_data
    split
    · rfl
    · rw [List.map_map]
      conv_rhs => rw [← List.enum_map_snd velocities, List.map_map]
      congr 1
  refine ⟨?_, hmap, ?_⟩
  · have := congrArg List.length hmap
    simpa using this
  · intro hlt
    unfold _smooth_velocity_data
    rw [if_pos hlt]

/-- Witness for C10 at a one-sample stream with window 5. -/
theorem smoothing_c10_witness :
    ([mkv 0 0 1] : List VelSample).length < 5 ∧
      _smooth_velocity_data [mkv 0 0 1] 5 = [mkv 0 0 1] :=
  ⟨by decide, (smoothing_c10 [mkv 0 0 1] 5).2.2 (by decide)⟩

/-- Counterexample for C5: on two reps with tension scores 50 and 50 and
average velocities 0.01 and 1 (second half faster than the first), the
overall rating is `min(100, 50 + min(20, −99·50)) = −4900`, far below 0:
the decay bonus has no lower clamp. -/
theorem overall_rating_c5_counterexample :
    calculate_overall_tension_rating c5cex = some (-4900) ∧
      ((-4900 : ℚ) < 0) := by
  constructor
  · norm_num [calculate_overall_tension_rating, c5cex, List.mapM, List.mapM.loop]
  · norm_num

/-- Counterexample for C7: the six-sample interval with velocities
`[0, 0.4, 0.1, 0.1, 0, 0]` is accepted by `_is_significant_movement`
(its start average is the first sample only, `0`), yet under the spec's
thirds rule the middle third's mean (`0.1`) is not strictly greater than
the first third's mean (`0.2`), so the claimed characterization rejects
it: the predicate does not split the interval into thirds. -/
theorem significant_movement_c7_counterexample :
    _is_significant_movement c7samples = true ∧
      spec_significant_thirds (c7samples.map VelSample.velocity) = false := by
  constructor
  · norm_num [_is_significant_movement, significantCore, c7samples, mkv, mean,
      listMax, listMin]
    exact List.cons_ne_nil _ _
  · norm_num [spec_significant_thirds, c7samples, mkv, mean, listMax, listMin]

/-- Helper: a rep list whose entries all carry a tension score in
`[0, 100]` maps successfully under `mapM`, to a score list of the same
length with the same bounds. -/
theorem mapM_tension_scores (reps : List RepData)
    (h : ∀ r ∈ reps, (r.tension_score).isSome ∧
      0 ≤ (r.tension_score).getD 0 ∧ (r.tension_score).getD 0 ≤ 100) :
    ∃ l, reps.mapM RepData.tension_score = some l ∧ l.length = reps.length ∧
      ∀ s ∈ l, 0 ≤ s ∧ s ≤ 100 := by
  induction reps with
  | nil => exact ⟨[], rfl, rfl, by simp⟩
  | cons r rest ih =>
    obtain ⟨hs, h0, h100⟩ := h r (by simp)
    obtain ⟨s, hsome⟩ := Option.isSome_iff_exists.mp hs
    obtain ⟨l, hl, hlen, hbnd⟩ := ih (fun x hx => h x (by simp [hx]))
    refine ⟨s :: l, ?_, by simp [hlen], ?_⟩
    · rw [List.mapM_cons]
      simp only [hsome, Option.bind_eq_bind, Option.some_bind]
      rw [hl]
      rfl
    · intro t ht
      rcases List.mem_cons.mp ht with rfl | ht2
      · exact ⟨by simpa [hsome] using h0, by simpa [hsome] using h100⟩
      · exact hbnd t ht2

/-- C5 (amended): for a non-empty rep sequence whose reps all carry a
tension score in `[0, 100]`, the overall rating is defined and at most
`100`; it is also at least `0` provided the velocity-decay bonus is
nonnegative, i.e. when the second half's mean `avg_velocity` does not
exceed the first half's (or the first half's mean is not positive). The
original claim's unconditional lower bound is false: the decay bonus
`min(20, decay·50)` has no lower clamp, so a second half that is
sufficiently faster drives the rating below `0`. -/
theorem overall_rating_c5_amended (reps : List RepData) (hne : reps ≠ [])
    (hscores : ∀ r ∈ reps, (r.tension_score).isSome ∧
      0 ≤ (r.tension_score).getD 0 ∧ (r.tension_score).getD 0 ≤ 100)
    (hdecay : secondHalfMeanVel reps ≤ firstHalfMeanVel reps ∨
      firstHalfMeanVel reps ≤ 0) :
    ∃ v, calculate_overall_tension_rating reps = some v ∧ 0 ≤ v ∧ v ≤ 100 := by
  obtain ⟨l, hl, hlen, hbnd⟩ := mapM_tension_scores reps hscores
  cases reps with
  | nil => exact absurd rfl hne
  | cons r0 rest =>
    have hsome0 : (r0.tension_score).isSome := (hscores r0 (by simp)).1
    have hlpos : 0 < (l.length : ℚ) := by
      have : 0 < l.length := by rw [hlen]; simp
      exact_mod_cast this
    have havg0 : 0 ≤ l.sum / (l.length : ℚ) :=
      div_nonneg (List.sum_nonneg fun x hx => (hbnd x hx).1) (le_of_lt hlpos)
    have havg100 : l.sum / (l.length : ℚ) ≤ 100 := by
      rw [div_le_iff₀ hlpos]
      calc l.sum ≤ l.length • (100 : ℚ) :=
            List.sum_le_card_nsmul l 100 fun x hx => (hbnd x hx).2
        _ = 100 * (l.length : ℚ) := by rw [nsmul_eq_mul]; ring
    simp only [calculate_overall_tension_rating, hsome0, if_pos, hl]
    by_cases hlen2 : 1 < (r0 :: rest).length
    · rw [if_pos hlen2]
      refine ⟨_, rfl, ?_, min_le_left _ _⟩
      have hbonus : 0 ≤ min 20
          ((if 0 < (List.map RepData.avg_velocity
                (List.take ((r0 :: rest).length / 2) (r0 :: rest))).sum /
                ((List.take ((r0 :: rest).length / 2) (r0 :: rest)).length : ℚ) then
              ((List.map RepData.avg_velocity
                  (List.take ((r0 :: rest).length / 2) (r0 :: rest))).sum /
                  ((List.take ((r0 :: rest).length / 2) (r0 :: rest)).length : ℚ) -
                (List.map RepData.avg_velocity
                  (List.drop ((r0 :: rest).length / 2) (r0 :: rest))).sum /
                  ((List.drop ((r0 :: rest).length / 2) (r0 :: rest)).length : ℚ)) /
                ((List.map RepData.avg_velocity
                  (List.take ((r0 :: rest).length / 2) (r0 :: rest))).sum /
                  ((List.take ((r0 :: rest).length / 2) (r0 :: rest)).length : ℚ))
            else 0) * 50) := by
        have hfm : (List.map RepData.avg_velocity
            (List.take ((r0 :: rest).length / 2) (r0 :: rest))).sum /
            ((List.take ((r0 :: rest).length / 2) (r0 :: rest)).length : ℚ) =
            firstHalfMeanVel (r0 :: rest) := by
          simp [firstHalfMeanVel, mean]
        have hsm : (List.map RepData.avg_velocity
            (List.drop ((r0 :: rest).length / 2) (r0 :: rest))).sum /
            ((List.drop ((r0 :: rest).length / 2) (r0 :: rest)).length : ℚ) =
            secondHalfMeanVel (r0 :: rest) := by
          simp [secondHalfMeanVel, mean]
        rw [hfm, hsm]
        by_cases hf : 0 < firstHalfMeanVel (r0 :: rest)
        · rw [if_pos hf]
          have hsecond : secondHalfMeanVel (r0 :: rest) ≤
              firstHalfMeanVel (r0 :: rest) := by
            rcases hdecay with h | h
            · exact h
            · exact absurd hf (not_lt.mpr h)
          have hdiv : 0 ≤ (firstHalfMeanVel (r0 :: rest) -
              secondHalfMeanVel (r0 :: rest)) / firstHalfMeanVel (r0 :: rest) :=
            div_nonneg (sub_nonneg.mpr hsecond) (le_of_lt hf)
          exact le_min (by norm_num) (mul_nonneg hdiv (by norm_num))
        · rw [if_neg hf]
          norm_num
      exact le_min (by norm_num) (add_nonneg havg0 hbonus)
    · rw [if_neg hlen2]
      exact ⟨_, rfl, havg0, havg100⟩

/-- Witness for C5 (amended) on two scored reps that slow down across the
set (tension scores 80 and 60, average velocities 2 then 1). -/
theorem overall_rating_c5_witness :
    c5wit ≠ [] ∧
      (∀ r ∈ c5wit, (r.tension_score).isSome ∧
        0 ≤ (r.tension_score).getD 0 ∧ (r.tension_score).getD 0 ≤ 100) ∧
      (secondHalfMeanVel c5wit ≤ firstHalfMeanVel c5wit ∨
        firstHalfMeanVel c5wit ≤ 0) ∧
      ∃ v, calculate_overall_tension_rating c5wit = some v ∧ 0 ≤ v ∧ v ≤ 100 :=
  ⟨by simp [c5wit], by decide,
   Or.inl (by norm_num [secondHalfMeanVel, firstHalfMeanVel, c5wit, mean]),
   overall_rating_c5_amended c5wit (by simp [c5wit]) (by decide)
     (Or.inl (by norm_num [secondHalfMeanVel, firstHalfMeanVel, c5wit, mean]))⟩

/-- C7 (amended): the significant-movement predicate rejects an interval
exactly when it is empty, or its dynamic range is below `0.03`, or it has
fewer than 3 samples, or the peak-segment average fails to strictly exceed
the start-segment and end-segment averages — where, for six or more
samples, the start average is over roughly the first quarter, the peak
average over roughly the middle half and the end average over roughly the
last quarter (not thirds), and for three to five samples the first sample,
the whole-list mean and the last sample are compared instead. -/
theorem significant_movement_c7_amended (rep_velocities : List VelSample) :
    _is_significant_movement rep_velocities = false ↔
      rep_velocities = [] ∨
        listMax (rep_velocities.map VelSample.velocity) -
            listMin (rep_velocities.map VelSample.velocity) < 3 / 100 ∨
        rep_velocities.length < 3 ∨
        sigPeakAvg (rep_velocities.map VelSample.velocity) ≤
          sigStartAvg (rep_velocities.map VelSample.velocity) ∨
        sigPeakAvg (rep_velocities.map VelSample.velocity) ≤
          sigEndAvg (rep_velocities.map VelSample.velocity) := by
  rcases eq_or_ne rep_velocities [] with hnil | hnil
  · subst hnil
    simp [_is_significant_movement, sigPeakAvg, sigStartAvg, mean]
  · simp only [_is_significant_movement, if_neg hnil]
    have hlen : (rep_velocities.map VelSample.velocity).length =
        rep_velocities.length := List.length_map _ _
    rw [← hlen]
    generalize rep_velocities.map VelSample.velocity = vels
    simp only [hnil, false_or]
    simp only [significantCore]
    unfold sigStartAvg sigPeakAvg sigEndAvg
    by_cases h1 : listMax vels - listMin vels < 3 / 100
    · simp [h1]
    · rw [if_neg h1]
      by_cases h2 : vels.length < 3
      · simp [h1, h2]
      · rw [if_neg h2]
        by_cases h3 :
            (if 2 < vels.length / 2 then
                mean ((vels.drop (vels.length / 2 / 2)).take (vels.length / 2))
              else mean vels) ≤
              (if 2 < vels.length / 2 then mean (vels.take (vels.length / 2 / 2))
                else vels.headD 0) ∨
            (if 2 < vels.length / 2 then
                mean ((vels.drop (vels.length / 2 / 2)).take (vels.length / 2))
              else mean vels) ≤
              (if 2 < vels.length / 2 then
                  mean (vels.drop (vels.length / 2 + vels.length / 2 / 2))
                else vels.getLastD 0)
        · rw [if_pos h3]
          exact iff_of_true rfl (Or.inr (Or.inr h3))
        · rw [if_neg h3]
          refine iff_of_false (by simp) ?_
          rintro (hc | hc | hc)
          exacts [h1 hc, h2 hc, h3 hc]

/-- Helper: a successful association-list lookup in a landmark map whose
entries all have at least two positions yields a list of length at least
two. -/
theorem lookup_two_le {l : List (String × List LandmarkPos)} {k : String}
    {v : List LandmarkPos} (h : ∀ p ∈ l, 2 ≤ p.2.length)
    (hl : l.lookup k = some v) : 2 ≤ v.length := by
  induction l with
  | nil => simp [List.lookup] at hl
  | cons hd tl ih =>
    rw [List.lookup] at hl
    rcases hbeq : (k == hd.1) with _ | _
    · rw [hbeq] at hl
      exact ih (fun p hp => h p (by simp [hp])) hl
    · rw [hbeq] at hl
      obtain rfl : hd.2 = v := by simpa using hl
      exact h hd (by simp)

/-- Helper: the side index is `0` or `1`, hence below two. -/
theorem jointIndex_lt_two (side : String) : jointIndex side < 2 := by
  unfold jointIndex
  split <;> norm_num

/-- Helper: the pairwise loop of `calculate_joint_velocities` succeeds
whenever every landmark entry of every frame carries at least two
positions. -/
theorem calculate_joint_velocities_aux_ok (joint_name side : String)
    (rest : List PoseFrame) :
    ∀ prev : PoseFrame,
      (∀ p ∈ prev.landmarks, 2 ≤ p.2.length) →
      (∀ f ∈ rest, ∀ p ∈ f.landmarks, 2 ≤ p.2.length) →
      ∃ out, calculate_joint_velocities_aux joint_name side prev rest = .ok out := by
  induction rest with
  | nil => exact fun prev _ _ => ⟨[], rfl⟩
  | cons curr rest ih =>
    intro prev hprev hrest
    have hcurr : ∀ p ∈ curr.landmarks, 2 ≤ p.2.length := hrest curr (by simp)
    obtain ⟨tail, htail⟩ := ih curr hcurr (fun f hf => hrest f (by simp [hf]))
    cases hpl : prev.landmarks.lookup joint_name with
    | none =>
      refine ⟨tail, ?_⟩
      rw [calculate_joint_velocities_aux, hpl]
      exact htail
    | some prev_positions =>
      cases hcl : curr.landmarks.lookup joint_name with
      | none =>
        refine ⟨tail, ?_⟩
        rw [calculate_joint_velocities_aux, hpl, hcl]
        exact htail
      | some curr_positions =>
        have h2p : 2 ≤ prev_positions.length := lookup_two_le hprev hpl
        have h2c : 2 ≤ curr_positions.length := lookup_two_le hcurr hcl
        have hj := jointIndex_lt_two side
        obtain ⟨pp, hpp⟩ : ∃ x, prev_positions.get? (jointIndex side) = some x := by
          cases hg : prev_positions.get? (jointIndex side) with
          | none =>
            have := List.get?_eq_none.mp hg
            omega
          | some x => exact ⟨x, rfl⟩
        obtain ⟨cp, hcp⟩ : ∃ x, curr_positions.get? (jointIndex side) = some x := by
          cases hg : curr_positions.get? (jointIndex side) with
          | none =>
            have := List.get?_eq_none.mp hg
            omega
          | some x => exact ⟨x, rfl⟩
        refine ⟨{ frame := curr.frame_number, timestamp := curr.timestamp,
                  velocity := calculate_velocity
                    ((pp.x : ℝ), (pp.y : ℝ), (pp.z : ℝ))
                    ((cp.x : ℝ), (cp.y : ℝ), (cp.z : ℝ))
                    (((curr.timestamp - prev.timestamp : ℚ)) : ℝ),
                  position := (cp.x, cp.y, cp.z) } :: tail, ?_⟩
        rw [calculate_joint_velocities_aux]
        simp only [hpl, hcl, hpp, hcp, htail]

/-- C3 (amended): `calculate_joint_velocities` returns normally on every
pose sequence in which each tracked joint carries a position for both
sides (at least two positions per landmark entry), for every joint name
and side. The original claim over all interface-conforming inputs (one
*or* two positions) is false: a joint present with only one position while
`side = 'right'` is requested raises an uncaught `IndexError`. -/
theorem calculate_joint_velocities_total_of_two_positions
    (pose_data_sequence : List PoseFrame) (joint_name side : String)
    (h : ∀ f ∈ pose_data_sequence, ∀ p ∈ f.landmarks, 2 ≤ p.2.length) :
    ∃ out, calculate_joint_velocities pose_data_sequence joint_name side =
      .ok out := by
  cases pose_data_sequence with
  | nil => exact ⟨[], rfl⟩
  | cons f rest =>
    obtain ⟨out, hout⟩ := calculate_joint_velocities_aux_ok joint_name side rest f
      (h f (by simp)) (fun g hg => h g (by simp [hg]))
    exact ⟨out, hout⟩

/-- Counterexample for C3: on two frames whose `wrist` entry carries
exactly one (left) position — a shape the external interface permits —
requesting `side = 'right'` makes `calculate_joint_velocities` raise an
`IndexError` (modelled as `Except.error`), contradicting the claim that
the engine never raises for data-quality issues. -/
theorem calculate_joint_velocities_single_position_error :
    ((c3f0.landmarks.lookup "wrist").map List.length = some 1) ∧
      ((c3f1.landmarks.lookup "wrist").map List.length = some 1) ∧
      calculate_joint_velocities [c3f0, c3f1] "wrist" "right" = .error () :=
  ⟨rfl, rfl, rfl⟩

/-- Witness for C3 (amended) on two frames whose `wrist` entry carries a
left and a right position. -/
theorem calculate_joint_velocities_total_witness :
    (∀ f ∈ c3ok, ∀ p ∈ f.landmarks, 2 ≤ p.2.length) ∧
      ∃ out, calculate_joint_velocities c3ok "wrist" "right" = .ok out :=
  ⟨by decide, calculate_joint_velocities_total_of_two_positions c3ok "wrist"
    "right" (by decide)⟩

end VelocityCalculator
